import Mathlib

/-!
Verification of the Monument acoustic measurement-and-comparison pipeline.

Shallow embedding of the Python analysis tools:
* `tools/plugin-analyzer/python/rt60_analysis_robust.py` (decay estimator)
* `tools/check_audio_stability.py` (numerical stability checker)
* `tools/compare_baseline.py` (baseline comparator)
* `scripts/sweep_drift_chaos.py` (sweep orchestrator: runaway detection, stats)
* `tools/plugin-analyzer/python/frequency_response.py` (flatness rating)

Numbers are embedded as exact rationals (`ℚ`).  Wherever the source compares
decibel values `c · log10 x ≤ d`, the embedding uses the equivalent
logarithm-free rational comparison obtained from strict monotonicity of
`log10` (`log10 x ≤ log10 y ↔ x ≤ y` for positive `x`, `y`); each such spot
is documented at its definition.
-/

namespace Monument

/-! ## Decay estimator — `rt60_analysis_robust.py` -/

/-- `energy = audio ** 2` (elementwise squaring of the sample buffer). -/
def energyOf (audio : List ℚ) : List ℚ := audio.map (fun x => x * x)

/-- Schroeder backward integration read in forward order:
`np.cumsum(energy[::-1])[::-1]`, i.e. the suffix sums `E i = Σ_{j ≥ i} l j`. -/
def suffixSums : List ℚ → List ℚ
  | [] => []
  | x :: xs =>
    match suffixSums xs with
    | [] => [x]
    | y :: ys => (x + y) :: y :: ys

/-- `np.max` over a list of rationals (the sources only apply it to nonempty
arrays; the `[]` case is a dummy value). -/
def listMaxQ : List ℚ → ℚ
  | [] => 0
  | [x] => x
  | x :: y :: ys => max x (listMaxQ (y :: ys))

/-- Index of the first element satisfying `p` (`np.where(...)[0][0]`). -/
def firstIdx (p : ℚ → Bool) : List ℚ → Option ℕ
  | [] => none
  | x :: xs => if p x then some 0 else (firstIdx p xs).map Nat.succ

/-- The threshold ratio `10 ^ (decay_db / 10)`.  The source works with the dB
curve `energy_db = 10 * log10(E + 1e-10)` normalized by subtracting
`np.max(energy_db)`; a point is past the `decay_db` threshold iff
`(E i + 1e-10) ≤ 10^(decay_db/10) * (max E + 1e-10)`. -/
def dbRatio (decayDb : ℤ) : ℚ := (10 : ℚ) ^ (decayDb / 10)

/-- First index where the normalized Schroeder decay curve has fallen to
`decay_db`: `np.where(energy_db <= decay_db)[0]` with
`energy_db = 10*log10(E+1e-10) - np.max(10*log10(E+1e-10))`.
Since `log10` is strictly monotone and every `E i + 1e-10` is positive, the
dB comparison is equivalent to the rational comparison used here, and
`np.max` of the dB curve corresponds to `listMaxQ E`. -/
def firstCrossing (E : List ℚ) (ratio : ℚ) : Option ℕ :=
  firstIdx (fun e => decide (e + 1 / 10 ^ 10 ≤ ratio * (listMaxQ E + 1 / 10 ^ 10))) E

/-- `manual_rt60_calculation(audio, sample_rate, decay_db)`:
Schroeder backward integration.  Returns `none` when the signal has
insufficient energy (`max energy < 1e-10`) or when the decay curve never
reaches `decay_db` within the recording; otherwise the crossing time scaled
by `60 / |decay_db|` ("If we're measuring decay other than -60dB, scale it"). -/
def manual_rt60_calculation (audio : List ℚ) (sampleRate : ℚ) (decayDb : ℤ) : Option ℚ :=
  if listMaxQ (energyOf audio) < 1 / 10 ^ 10 then none
  else
    match firstCrossing (suffixSums (energyOf audio)) (dbRatio decayDb) with
    | none => none
    | some i => some (((i : ℚ) / sampleRate) * (60 / |(decayDb : ℚ)|))

/-- Outcome of the external `pyroomacoustics` estimator call.  `failed`
covers all of: the library is unavailable, the call raised, or it returned
`NaN` (the source re-raises on NaN, landing in the same fallback path). -/
inductive PraOutcome where
  | failed : PraOutcome
  | value : ℚ → PraOutcome

/-- The acceptance test on the external estimator's result:
`rt60 is not None and not np.isnan(rt60) and rt60 > 0`. -/
def praAccepted : PraOutcome → Option ℚ
  | .value v => if 0 < v then some v else none
  | .failed => none

/-- The estimation core of `analyze_rt60`: the fallback ladder.  Tries the
external estimator, then manual Schroeder integration at −60 dB, then the
−30 dB crossing whose result is multiplied by 2 (`rt60_broadband = rt30 * 2`),
tagging the method used.  File I/O, printing and plotting are omitted. -/
def analyze_rt60 (audio : List ℚ) (sampleRate : ℚ) (pra : PraOutcome) : Option ℚ × String :=
  match praAccepted pra with
  | some v => (some v, "pyroomacoustics")
  | none =>
    match manual_rt60_calculation audio sampleRate (-60) with
    | some r => (some r, "manual")
    | none =>
      match manual_rt60_calculation audio sampleRate (-30) with
      | some rt30 => (some (rt30 * 2), "manual_RT30_extrapolated")
      | none => (none, "manual")

/-! ## Stability checker — `check_audio_stability.py`

Samples are IEEE floats in the source; the embedding models a sample as a
rational together with the non-finite values `NaN`, `+Inf`, `-Inf`, with
IEEE comparison semantics (every comparison with `NaN` is false) and IEEE
addition semantics for the mean computation. -/

/-- A floating-point sample value. -/
inductive FSample where
  | nan : FSample
  | posInf : FSample
  | negInf : FSample
  | val : ℚ → FSample

/-- `np.isnan`. -/
def isNanB : FSample → Bool
  | .nan => true
  | _ => false

/-- `np.isinf` (true for either infinity). -/
def isInfB : FSample → Bool
  | .posInf => true
  | .negInf => true
  | _ => false

/-- Denormal test `(abs_samples > 0.0) & (abs_samples < DENORMAL_THRESHOLD)`
with `DENORMAL_THRESHOLD = 1e-38`.  For `NaN` both comparisons are false;
for an infinity the second is false. -/
def isDenormalB : FSample → Bool
  | .val q => decide (0 < |q| ∧ |q| < 1 / 10 ^ 38)
  | _ => false

/-- `np.sum` of a boolean mask: the number of samples satisfying `p`. -/
def countB (p : FSample → Bool) : List FSample → ℕ
  | [] => 0
  | x :: xs => (if p x then 1 else 0) + countB p xs

/-- IEEE addition on sample values: `NaN` propagates, opposite infinities
give `NaN`, an infinity absorbs finite values. -/
def fAdd : FSample → FSample → FSample
  | .nan, _ => .nan
  | _, .nan => .nan
  | .posInf, .negInf => .nan
  | .negInf, .posInf => .nan
  | .posInf, _ => .posInf
  | _, .posInf => .posInf
  | .negInf, _ => .negInf
  | _, .negInf => .negInf
  | .val a, .val b => .val (a + b)

/-- Sum of a sample list under IEEE addition (`np.sum`; the outcome here is
independent of summation order). -/
def fSum : List FSample → FSample
  | [] => .val 0
  | x :: xs => fAdd x (fSum xs)

/-- Division of a sample value by a positive rational. -/
def fDivPos (s : FSample) (d : ℚ) : FSample :=
  match s with
  | .nan => .nan
  | .posInf => .posInf
  | .negInf => .negInf
  | .val q => .val (q / d)

/-- `np.mean(samples)`: the IEEE sum divided by the length. -/
def fMean (xs : List FSample) : FSample := fDivPos (fSum xs) (xs.length : ℚ)

/-- `abs(...)` on a sample value. -/
def fAbs : FSample → FSample
  | .nan => .nan
  | .posInf => .posInf
  | .negInf => .posInf
  | .val q => .val |q|

/-- The statistics record built by `analyze_audio_stability` (class
`AudioStats`).  The informational `rms_db` and `peak_db` fields are computed
"for context" only and read by no check, so they are not modeled.
`dcAbsMean` carries `abs(np.mean(samples))` as an exact value; the source
stores `dc_offset_db = 20*log10(dcAbsMean + 1e-10)`, and the derived dB
comparison is modeled log-free in `dcExceedsDb60` below. -/
structure AudioStats where
  totalSamples : ℕ
  nanCount : ℕ
  infCount : ℕ
  denormalCount : ℕ
  denormalPercent : ℚ
  dcAbsMean : FSample

/-- `analyze_audio_stability(samples)`. -/
def analyze_audio_stability (xs : List FSample) : AudioStats :=
  { totalSamples := xs.length
    nanCount := countB isNanB xs
    infCount := countB isInfB xs
    denormalCount := countB isDenormalB xs
    denormalPercent := (countB isDenormalB xs : ℚ) / (xs.length : ℚ) * 100
    dcAbsMean := fAbs (fMean xs) }

/-- The DC-offset check `stats.dc_offset_db > DC_OFFSET_THRESHOLD_DB` with
`dc_offset_db = 20*log10(|mean| + 1e-10)` and threshold −60 dB.  For finite
`|mean| = m` this is `20*log10(m + 1e-10) > -60  ↔  m > 1/1000 - 1/10^10`
by strict monotonicity of `log10`; a `NaN` mean compares false, an infinite
mean compares true. -/
def dcExceedsDb60 : FSample → Bool
  | .nan => false
  | .posInf => true
  | .negInf => true
  | .val m => decide (1 / 1000 - 1 / 10 ^ 10 < m)

/-- `check_stability_thresholds(stats)`: evaluates the four budgets
(`MAX_ALLOWED_NAN = 0`, `MAX_ALLOWED_INF = 0`,
`MAX_ALLOWED_DENORMALS_PERCENT = 0.01`, DC ≤ −60 dB), appending one
violation entry per failing check (violation strings are modeled by fixed
labels, without the interpolated figures), and returns `all_passed`. -/
def check_stability_thresholds (s : AudioStats) : List String × Bool :=
  let nanBad := decide (0 < s.nanCount)
  let infBad := decide (0 < s.infCount)
  let denBad := decide (1 / 100 < s.denormalPercent)
  let dcBad := dcExceedsDb60 s.dcAbsMean
  ((if nanBad then ["NaN detected"] else []) ++
   (if infBad then ["Inf detected"] else []) ++
   (if denBad then ["Excessive denormals"] else []) ++
   (if dcBad then ["DC offset too high"] else []),
   !nanBad && !infBad && !denBad && !dcBad)

/-- The loader's stereo mono-fold `np.mean(samples, axis=1)` for two
interleaved channels: each frame becomes `(left + right) / 2`. -/
def monoFold (frames : List (FSample × FSample)) : List FSample :=
  frames.map (fun p => fDivPos (fAdd p.1 p.2) 2)

/-- A stereo frame of two finite samples. -/
def valPair (p : ℚ × ℚ) : FSample × FSample := (.val p.1, .val p.2)

/-- A three-sample impulse-like recording at 1 Hz whose decay curve crosses
−30 dB at sample 1 but never reaches −60 dB. -/
def c1Audio : List ℚ := [1, 1 / 100, 1 / 100]

/-! ## Sweep orchestrator — `sweep_drift_chaos.py` -/

/-- Whether `pat` is an initial segment of `l` (character lists). -/
def leadsWithChars : List Char → List Char → Bool
  | [], _ => true
  | _ :: _, [] => false
  | p :: ps, c :: cs => p == c && leadsWithChars ps cs

/-- Whether `pat` occurs contiguously inside `l` (Python's `pat in s`). -/
def subOccurs (pat : List Char) : List Char → Bool
  | [] => pat.isEmpty
  | c :: cs => leadsWithChars pat (c :: cs) || subOccurs pat cs

/-- `"decay" in notes.lower()`. -/
def mentionsDecay (s : String) : Bool :=
  subOccurs "decay".toList (s.toList.map Char.toLower)

/-- The fields of an RT60 metrics document read by `detect_runaway`.
`analysisNotes` models `str(rt60_data.get("analysis_notes", ""))` (empty
when the key is absent); `broadbandRt60` models
`rt60_data.get("broadband", {}).get("rt60_seconds", 0.0)` before the
`or 0.0` coercion. -/
structure RunawayDoc where
  analysisNotes : String
  broadbandRt60 : Option ℚ

/-- `float(... .get("rt60_seconds", 0.0) or 0.0)`: a missing (or `None`,
or falsy `0.0`) value becomes `0.0`. -/
def rt60OrZero (d : RunawayDoc) : ℚ :=
  match d.broadbandRt60 with
  | some v => v
  | none => 0

/-- `detect_runaway(rt60_data, duration_seconds)`.  A missing document
(`None` / empty dict, both falsy) is never flagged.  The second branch's
reason string carries an interpolated figure in the source; it is modeled
by a fixed label (only the flag is consumed by the claims). -/
def detect_runaway (doc : Option RunawayDoc) (durationSeconds : ℚ) : Bool × String :=
  match doc with
  | none => (false, "")
  | some d =>
    if d.analysisNotes ≠ "" ∧ mentionsDecay d.analysisNotes = true then (true, d.analysisNotes)
    else if 0 < rt60OrZero d ∧ durationSeconds * (9 / 10) ≤ rt60OrZero d then
      (true, "rt60 above 90 percent of capture duration")
    else (false, "")

/-- A per-cell result row, restricted to the fields the summary statistics
read (`results.append({...})` in `main`). -/
structure RunRow where
  preset : ℤ
  drift : ℚ
  chaosIntensity : ℚ
  rt60_seconds : Option ℚ
  flatness_db : Option ℚ

/-- `[item["rt60_seconds"] for item in results if item["rt60_seconds"]]`:
Python truthiness keeps a value only when it is neither `None` nor `0.0`. -/
def truthyRt60 (rs : List RunRow) : List ℚ :=
  rs.filterMap (fun row =>
    match row.rt60_seconds with
    | some v => if v = 0 then none else some v
    | none => none)

/-- `[item["flatness_db"] for item in results if item["flatness_db"]]`. -/
def truthyFlatness (rs : List RunRow) : List ℚ :=
  rs.filterMap (fun row =>
    match row.flatness_db with
    | some v => if v = 0 then none else some v
    | none => none)

/-- Insertion step for Python's ascending `sorted`. -/
def insertSorted (x : ℚ) : List ℚ → List ℚ
  | [] => [x]
  | y :: ys => if x ≤ y then x :: y :: ys else y :: insertSorted x ys

/-- `sorted(values)`. -/
def sortedQ (l : List ℚ) : List ℚ := l.foldr insertSorted []

/-- The record produced by `compute_basic_stats`. -/
structure BasicStats where
  count : ℕ
  min : ℚ
  max : ℚ
  mean : ℚ
  median : ℚ
  p95 : ℚ

/-- `compute_basic_stats(values)`: `None` on an empty list, otherwise
min/max/mean/median and the linearly interpolated 95th percentile of the
sorted values (`int(k)` truncates; `k ≥ 0` here, so it is the floor). -/
def compute_basic_stats (values : List ℚ) : Option BasicStats :=
  if values = [] then none
  else
    let s := sortedQ values
    let count := s.length
    let mean := s.sum / (count : ℚ)
    let median :=
      if count % 2 = 1 then s.getD (count / 2) 0
      else (1 / 2) * (s.getD (count / 2 - 1) 0 + s.getD (count / 2) 0)
    let p95 :=
      if count = 1 then s.getD 0 0
      else
        let k : ℚ := ((count : ℚ) - 1) * (19 / 20)
        let f : ℤ := ⌊k⌋
        let c : ℤ := ⌈k⌉
        if f = c then s.getD f.toNat 0
        else s.getD f.toNat 0 * ((c : ℚ) - k) + s.getD c.toNat 0 * (k - (f : ℚ))
    some ⟨count, s.headD 0, s.getLastD 0, mean, median, p95⟩

/-- `summary["rt60_stats"] = compute_basic_stats(rt60_values)`. -/
def rt60Stats (rs : List RunRow) : Option BasicStats :=
  compute_basic_stats (truthyRt60 rs)

/-- `summary["flatness_stats"] = compute_basic_stats(flatness_values)`. -/
def flatnessStats (rs : List RunRow) : Option BasicStats :=
  compute_basic_stats (truthyFlatness rs)

/-- `summary["max_rt60"]`: present only when the truthy-filtered value list
is nonempty; records `max(rt60_values)` and the preset/drift/chaos of the
first row whose `rt60_seconds` equals that maximum
(`next(item for item in results if item["rt60_seconds"] == max_rt60)`;
a `None` never equals a float). -/
def maxRt60Entry (rs : List RunRow) : Option (ℚ × ℤ × ℚ × ℚ) :=
  if truthyRt60 rs = [] then none
  else
    let m := listMaxQ (truthyRt60 rs)
    (rs.find? (fun row => decide (row.rt60_seconds = some m))).map
      (fun row => (m, row.preset, row.drift, row.chaosIntensity))

/-- A concrete measured cell row (RT60 3 s, flatness 5 dB). -/
def c10RowA : RunRow :=
  { preset := 0, drift := 0, chaosIntensity := 0,
    rt60_seconds := some 3, flatness_db := some 5 }

/-- A concrete degenerate cell row (`rt60_seconds` `None`, flatness `0.0`). -/
def c10RowB : RunRow :=
  { preset := 1, drift := 1, chaosIntensity := 0,
    rt60_seconds := none, flatness_db := some 0 }

/-! ## Spectral flatness rating — `frequency_response.py` -/

/-- The four-level qualitative rating assigned from the overall flatness
figure (lines 174–185 of `analyze_impulse_response`). -/
def quality_rating (flatness : ℚ) : String :=
  if flatness < 3 then "Excellent"
  else if flatness < 6 then "Good"
  else if flatness < 10 then "Fair"
  else "Colored"

/-- The audible-range spectrum selection
`audio_range_mask = (freqs >= 20) & (freqs <= 20000);
audio_spectrum = magnitude_db[audio_range_mask]` — boolean-mask indexing of
the parallel `freqs` / `magnitude_db` arrays. -/
def audioSpectrum (freqs mags : List ℚ) : List ℚ :=
  ((freqs.zip mags).filter (fun p => decide (20 ≤ p.1 ∧ p.1 ≤ 20000))).map Prod.snd

/-- `np.mean`. -/
def meanQ (l : List ℚ) : ℚ := l.sum / (l.length : ℚ)

/-- The square of `np.std` (population standard deviation, `ddof = 0`):
the mean squared deviation from the mean.  The source's
`flatness_db = np.std(audio_spectrum)` is its (irrational) square root; the
rating thresholds of `quality_rating` are applied to that root. -/
def varQ (l : List ℚ) : ℚ :=
  ((l.map (fun x => x - meanQ l)).map (fun d => d * d)).sum / (l.length : ℚ)

/-- Squared overall flatness figure computed along the source's mask path. -/
def overallFlatnessSq (freqs mags : List ℚ) : ℚ := varQ (audioSpectrum freqs mags)

/-- Modelled from the spec's words: "the standard deviation of the
peak-normalized magnitude spectrum in dB restricted to frequencies in
[20 Hz, 20 kHz]" — the magnitude values whose paired frequency lies in the
audible band, selected by index. -/
def bandRestricted (freqs mags : List ℚ) : List ℚ :=
  (List.range (min freqs.length mags.length)).filterMap
    (fun i => if 20 ≤ freqs.getD i 0 ∧ freqs.getD i 0 ≤ 20000
              then some (mags.getD i 0) else none)

/-! ## Baseline comparator — `compare_baseline.py` -/

/-- The fields of an RT60 metrics document read by `compare_rt60`: the
top-level `rt60_seconds` key and the nested `broadband.rt60_seconds`
(`none` models an absent key or a JSON `null`). -/
structure Rt60Doc where
  rt60_seconds : Option ℚ
  broadband_rt60_seconds : Option ℚ

/-- `baseline.get('rt60_seconds') or baseline.get('broadband', {}).get('rt60_seconds')`:
Python's `or` falls through on any falsy left operand, so a top-level value
of `0.0` (not only a missing key) defers to the broadband value, which is
then returned as-is (including `0.0` or `None`). -/
def rt60Lookup (d : Rt60Doc) : Option ℚ :=
  match d.rt60_seconds with
  | some v => if v = 0 then d.broadband_rt60_seconds else some v
  | none => d.broadband_rt60_seconds

/-- Outcome of `compare_rt60`: either an uncaught `ZeroDivisionError`
(`abs(baseline_rt60 - current_rt60) / baseline_rt60` with a `0.0`
denominator raises in Python) or the verdict triple. -/
inductive Rt60Cmp where
  | zeroDiv : Rt60Cmp
  | res : Bool → String → ℚ → Rt60Cmp

/-- `compare_rt60(baseline, current, threshold)`.  The interpolated figures
inside the messages are not modeled; the `"Missing RT60 data"` text is the
source's verbatim string. -/
def compare_rt60 (baseline current : Rt60Doc) (threshold : ℚ) : Rt60Cmp :=
  match rt60Lookup baseline, rt60Lookup current with
  | none, _ => .res false "Missing RT60 data" 0
  | _, none => .res false "Missing RT60 data" 0
  | some b, some c =>
    if b = 0 then .zeroDiv
    else
      let diffPct := |b - c| / b * 100
      if threshold * 100 < diffPct then .res false "RT60 changed" diffPct
      else .res true "RT60 within threshold" diffPct

/-- The fields of a frequency-response document read by
`compare_frequency_response`: `broadband.flatness_db` with fallback to
`overall.flatness_std_db`. -/
structure FreqDoc where
  broadband_flatness_db : Option ℚ
  overall_flatness_std_db : Option ℚ

/-- The flatness lookup chain (an explicit `is None` check here, unlike the
RT60 falsy `or`-chain: a present `0.0` is used). -/
def flatLookup (d : FreqDoc) : Option ℚ :=
  match d.broadband_flatness_db with
  | some v => some v
  | none => d.overall_flatness_std_db

/-- `compare_frequency_response(baseline, current, threshold)`; the dB
threshold is the relative threshold scaled by 10. -/
def compare_frequency_response (baseline current : FreqDoc) (threshold : ℚ) :
    Bool × String × ℚ :=
  match flatLookup baseline, flatLookup current with
  | none, _ => (false, "Missing frequency response data", 0)
  | _, none => (false, "Missing frequency response data", 0)
  | some fb, some fc =>
    let diff := |fb - fc|
    if threshold * 10 < diff then (false, "Flatness changed", diff)
    else (true, "Frequency response within threshold", diff)

/-- The `broadband` fields of a spatial metrics document read by
`compare_spatial_metrics`. -/
structure SpatialDoc where
  itd_seconds : Option ℚ
  ild_db : Option ℚ
  iacc : Option ℚ

/-- The numeric deltas recorded by `compare_spatial_metrics` (each present
exactly when both sides carry the cue). -/
structure SpatialDeltas where
  itdDeltaMs : Option ℚ
  ildDbDelta : Option ℚ
  iaccDelta : Option ℚ

/-- `compare_spatial_metrics(baseline, current, itd_ms, ild_db, iacc)`:
each cue is compared only when present on both sides; every exceeded
threshold appends its own issue; the verdict is `len(issues) == 0`. -/
def compare_spatial_metrics (baseline current : SpatialDoc)
    (itdMsThr ildDbThr iaccThr : ℚ) : Bool × List String × SpatialDeltas :=
  let itd : List String × Option ℚ :=
    match baseline.itd_seconds, current.itd_seconds with
    | some x, some y =>
      let d := |x - y| * 1000
      (if itdMsThr < d then ["ITD changed"] else [], some d)
    | _, _ => ([], none)
  let ild : List String × Option ℚ :=
    match baseline.ild_db, current.ild_db with
    | some x, some y =>
      let d := |x - y|
      (if ildDbThr < d then ["ILD changed"] else [], some d)
    | _, _ => ([], none)
  let iacc : List String × Option ℚ :=
    match baseline.iacc, current.iacc with
    | some x, some y =>
      let d := |x - y|
      (if iaccThr < d then ["IACC changed"] else [], some d)
    | _, _ => ([], none)
  let issues := itd.1 ++ ild.1 ++ iacc.1
  (issues.isEmpty, issues, ⟨itd.2, ild.2, iacc.2⟩)

/-- A decoded `wet.wav`: sample rate plus raw sample values.  Multi-channel
audio is averaged into a mono fold by `compare_waveforms` before analysis;
the model carries the folded sequence.  The raw values are divided by
32768 inside `compare_waveforms`, as in the source. -/
structure Wav where
  sampleRate : ℤ
  samples : List ℚ

/-- The similarity metrics of `compare_waveforms`, carried in exact form:
the source's `rms_difference` is `√rmsDiffSq`, and its Pearson
`correlation` (`np.corrcoef[0, 1]` over the mean-centered, length-aligned
signals) is `corrNum / √(corrVarX · corrVarY)` — the `1/(n-1)` covariance
normalizations cancel.  Square roots are irrational, so the comparator's
threshold checks on them are expressed in the equivalent squared forms
`corrLow` and `rmsHigh` below. -/
structure WaveformMetrics where
  rmsDiffSq : ℚ
  corrNum : ℚ
  corrVarX : ℚ
  corrVarY : ℚ

/-- Mean-centering `l - np.mean(l)`. -/
def centered (l : List ℚ) : List ℚ := l.map (fun x => x - meanQ l)

/-- `compare_waveforms(baseline_wav, current_wav)`: `none` models the
`{'error': 'Sample rate mismatch'}` dictionary; otherwise both signals are
scaled by 1/32768, truncated to the shorter length, and the difference/
correlation statistics are computed.  (The informational
`spectral_difference_db` Welch figure is read by no check and not
modeled.) -/
def compare_waveforms (baseline current : Wav) : Option WaveformMetrics :=
  if baseline.sampleRate ≠ current.sampleRate then none
  else
    let x0 := baseline.samples.map (fun v => v / 32768)
    let y0 := current.samples.map (fun v => v / 32768)
    let n := min x0.length y0.length
    let x := x0.take n
    let y := y0.take n
    let diff := List.zipWith (fun a b => a - b) x y
    let cx := centered x
    let cy := centered y
    some { rmsDiffSq := ((diff.map (fun d => d * d)).sum) / (n : ℚ)
           corrNum := (List.zipWith (fun a b => a * b) cx cy).sum
           corrVarX := (cx.map (fun v => v * v)).sum
           corrVarY := (cy.map (fun v => v * v)).sum }

/-- The centered energy `Σ (x − x̄)²` of a waveform's scaled samples: the
common value of `corrNum`, `corrVarX` and `corrVarY` when a waveform is
compared against itself.  It is positive exactly when the signal is
non-constant. -/
def selfVar (w : Wav) : ℚ :=
  ((centered (w.samples.map (fun v => v / 32768))).map (fun v => v * v)).sum

/-- `waveform_metrics['correlation'] < 0.95` in exact form: with
`D := corrVarX · corrVarY`, the correlation `corrNum / √D` is below `0.95`
iff `D > 0` and (`corrNum < 0` or `corrNum² < 0.95² · D`).  When `D = 0`
the source's correlation is `NaN` and the `<` comparison is false, matching
the `0 < D` conjunct. -/
def corrLow (m : WaveformMetrics) : Bool :=
  decide (0 < m.corrVarX * m.corrVarY ∧
    (m.corrNum < 0 ∨ m.corrNum ^ 2 < (361 / 400) * (m.corrVarX * m.corrVarY)))

/-- `waveform_metrics['rms_difference'] > threshold` in exact form:
`√S > t  ↔  t < 0 ∨ t² < S`. -/
def rmsHigh (threshold : ℚ) (m : WaveformMetrics) : Bool :=
  decide (threshold < 0 ∨ threshold ^ 2 < m.rmsDiffSq)

/-- "Correlation is exactly 1.0" in exact form: `corrNum / √(varX · varY)`
equals 1 iff the numerator is positive and its square equals the product
under the root. -/
def correlationIsOne (m : WaveformMetrics) : Prop :=
  0 < m.corrNum ∧ m.corrNum ^ 2 = m.corrVarX * m.corrVarY

/-- One side's on-disk data for a preset: whether the preset directory
exists, and the parsed content of each metric file / the wet waveform when
the file exists (`none` = file absent, matching `load_metrics`, which only
loads files that exist; a present file is modeled as a parsed, truthy
document). -/
structure PresetEntry where
  present : Bool
  rt60 : Option Rt60Doc
  freq : Option FreqDoc
  spatial : Option SpatialDoc
  wet : Option Wav

/-- The per-preset result dictionary (`preset_index`, `pass`, `issues`,
and the `metrics` entries). -/
structure ComparisonResult where
  presetIndex : ℤ
  pass : Bool
  issues : List String
  rt60DiffPct : Option ℚ
  freqDiffDb : Option ℚ
  spatialDeltas : Option SpatialDeltas
  waveform : Option WaveformMetrics

/-- The freshly initialised result (`pass=True`, no issues, no metrics). -/
def initResult (idx : ℤ) : ComparisonResult :=
  { presetIndex := idx, pass := true, issues := [],
    rt60DiffPct := none, freqDiffDb := none, spatialDeltas := none, waveform := none }

/-- The RT60 block of `compare_preset`: runs only when both sides loaded an
`rt60_metrics.json`; a failing comparison clears `pass` and appends its
issue; an uncaught `ZeroDivisionError` aborts the comparison (`none`). -/
def applyRt60 (b c : PresetEntry) (threshold : ℚ) (r : ComparisonResult) :
    Option ComparisonResult :=
  match b.rt60, c.rt60 with
  | some db, some dc =>
    match compare_rt60 db dc threshold with
    | .zeroDiv => none
    | .res ok msg diff =>
      some { r with
        rt60DiffPct := some diff
        pass := r.pass && ok
        issues := r.issues ++ (if ok then [] else ["RT60: " ++ msg]) }
  | _, _ => some r

/-- The frequency-response block of `compare_preset`. -/
def applyFreq (b c : PresetEntry) (threshold : ℚ) (r : ComparisonResult) :
    ComparisonResult :=
  match b.freq, c.freq with
  | some db, some dc =>
    let out := compare_frequency_response db dc threshold
    { r with
      freqDiffDb := some out.2.2
      pass := r.pass && out.1
      issues := r.issues ++ (if out.1 then [] else ["Frequency: " ++ out.2.1]) }
  | _, _ => r

/-- The spatial block of `compare_preset`; the deltas dictionary is
recorded only when nonempty (`if spatial_metrics:`), and each spatial issue
is appended with the `"Spatial: "` prefix. -/
def applySpatial (b c : PresetEntry) (itdMsThr ildDbThr iaccThr : ℚ)
    (r : ComparisonResult) : ComparisonResult :=
  match b.spatial, c.spatial with
  | some db, some dc =>
    let out := compare_spatial_metrics db dc itdMsThr ildDbThr iaccThr
    { r with
      spatialDeltas :=
        if out.2.2.itdDeltaMs.isNone ∧ out.2.2.ildDbDelta.isNone ∧ out.2.2.iaccDelta.isNone
        then r.spatialDeltas else some out.2.2
      pass := r.pass && out.1
      issues := r.issues ++ out.2.1.map (fun s => "Spatial: " ++ s) }
  | _, _ => r

/-- The waveform block of `compare_preset`: runs only when both `wet.wav`
files exist; a sample-rate-mismatch error skips the checks and records
nothing; otherwise the correlation and RMS-difference checks each clear
`pass` and append their own issue. -/
def applyWaveform (b c : PresetEntry) (threshold : ℚ) (r : ComparisonResult) :
    ComparisonResult :=
  match b.wet, c.wet with
  | some wb, some wc =>
    match compare_waveforms wb wc with
    | none => r
    | some m =>
      let corrBad := corrLow m
      let rmsBad := rmsHigh threshold m
      { r with
        waveform := some m
        pass := r.pass && !corrBad && !rmsBad
        issues := r.issues ++ (if corrBad then ["Waveform correlation low"] else []) ++
          (if rmsBad then ["Waveform RMS difference"] else []) }
  | _, _ => r

/-- `compare_preset(preset_idx, baseline_dir, current_dir, ...)`: an absent
preset directory on either side fails immediately with its reason;
otherwise the four comparison blocks run in source order, each appending
its failures.  `none` models an uncaught exception
(`ZeroDivisionError` from `compare_rt60`). -/
def compare_preset (presetIdx : ℤ) (b c : PresetEntry)
    (threshold itdMsThr ildDbThr iaccThr : ℚ) : Option ComparisonResult :=
  if b.present = false then
    some { initResult presetIdx with pass := false, issues := ["Baseline preset missing"] }
  else if c.present = false then
    some { initResult presetIdx with pass := false, issues := ["Current preset missing"] }
  else
    (applyRt60 b c threshold (initResult presetIdx)).map
      (fun r => applyWaveform b c threshold
        (applySpatial b c itdMsThr ildDbThr iaccThr
          (applyFreq b c threshold r)))

/-- The comparison loop of `main`: one `compare_preset` call per requested
index, each reading only its own preset's data on both sides. -/
def compareAll (indices : List ℤ) (bMap cMap : ℤ → PresetEntry)
    (threshold itdMsThr ildDbThr iaccThr : ℚ) : List (ℤ × Option ComparisonResult) :=
  indices.map (fun i =>
    (i, compare_preset i (bMap i) (cMap i) threshold itdMsThr ildDbThr iaccThr))

/-- A preset directory whose `rt60_metrics.json` exists (broadband RT60 of
1 s) and whose other files are absent. -/
def entryWithRt60 : PresetEntry :=
  { present := true, rt60 := some ⟨none, some 1⟩, freq := none, spatial := none, wet := none }

/-- A preset directory that exists but contains no metric files and no
`wet.wav`. -/
def entryNoFiles : PresetEntry :=
  { present := true, rt60 := none, freq := none, spatial := none, wet := none }

/-- An absent preset directory. -/
def absentEntry : PresetEntry :=
  { present := false, rt60 := none, freq := none, spatial := none, wet := none }

/-- A complete, well-formed preset entry used as a self-comparison
witness: RT60 1 s, flatness 2 dB, all three spatial cues present, and a
non-constant two-sample wet waveform. -/
def c7Entry : PresetEntry :=
  { present := true
    rt60 := some ⟨none, some 1⟩
    freq := some ⟨some 2, none⟩
    spatial := some ⟨some 0, some 3, some (1 / 2)⟩
    wet := some ⟨48000, [0, 16384]⟩ }

/-- Baseline RT60 document with broadband `0.0` and no top-level value. -/
def rt60DocBroadbandZero : Rt60Doc := ⟨none, some 0⟩

/-- Baseline RT60 document with top-level `0.0` and no broadband value. -/
def rt60DocTopZero : Rt60Doc := ⟨some 0, none⟩

/-- Current-side RT60 document carrying the value 1 s. -/
def rt60DocOne : Rt60Doc := ⟨some 1, none⟩

/-! ## Helper lemmas -/

/-- Finite samples contribute no `NaN` count. -/
theorem countB_isNan_vals (a : List ℚ) : countB isNanB (a.map FSample.val) = 0 := by
  induction a with
  | nil => rfl
  | cons x xs ih => simp [countB, isNanB, ih]

/-- A sample list with exactly one `NaN` among finite samples counts one. -/
theorem countB_isNan_single (a b : List ℚ) :
    countB isNanB (a.map FSample.val ++ FSample.nan :: b.map FSample.val) = 1 := by
  induction a with
  | nil => simp [countB, isNanB, countB_isNan_vals]
  | cons x xs ih => simpa [countB, isNanB] using ih

/-- A nonzero NaN count forces the overall stability verdict to fail. -/
theorem check_fails_of_nan (s : AudioStats) (h : s.nanCount ≠ 0) :
    (check_stability_thresholds s).2 = false := by
  have hp : 0 < s.nanCount := Nat.pos_of_ne_zero h
  simp [check_stability_thresholds, hp]

/-- Folding all-finite frames yields the per-frame finite averages. -/
theorem mapFold_vals (l : List (ℚ × ℚ)) :
    (l.map valPair).map (fun p => fDivPos (fAdd p.1 p.2) 2) =
      (l.map (fun p => (p.1 + p.2) / 2)).map FSample.val := by
  induction l with
  | nil => rfl
  | cons x xs ih => simp [valPair, fAdd, fDivPos, ih]

/-- Boolean core of `check_stability_thresholds`: the pass flag is the
conjunction of the four per-check passes, the violation list is empty iff
the flag is set, and its length counts the failing checks. -/
theorem check_bool_core (b1 b2 b3 b4 : Bool) :
    ((!b1 && !b2 && !b3 && !b4) = true ↔
      ((if b1 then ["NaN detected"] else []) ++ (if b2 then ["Inf detected"] else []) ++
       (if b3 then ["Excessive denormals"] else []) ++
       (if b4 then ["DC offset too high"] else [])) = ([] : List String)) ∧
    ((if b1 then ["NaN detected"] else []) ++ (if b2 then ["Inf detected"] else []) ++
     (if b3 then ["Excessive denormals"] else []) ++
     (if b4 then ["DC offset too high"] else [])).length =
      ((if b1 then 1 else 0) + (if b2 then 1 else 0) +
       (if b3 then 1 else 0) + (if b4 then 1 else 0)) := by
  cases b1 <;> cases b2 <;> cases b3 <;> cases b4 <;> simp

/-- The pattern `"decay"` does not occur in the empty string. -/
theorem mentionsDecay_empty : mentionsDecay "" = false := by decide

/-- A nonempty maximum: `listMaxQ` of a nonempty list is one of its
elements. -/
theorem listMaxQ_mem : ∀ l : List ℚ, l ≠ [] → listMaxQ l ∈ l := by
  intro l
  induction l with
  | nil => intro h; exact absurd rfl h
  | cons x xs ih =>
    intro _
    cases xs with
    | nil => simp [listMaxQ]
    | cons y ys =>
      rcases max_choice x (listMaxQ (y :: ys)) with h | h
      · rw [listMaxQ, h]; exact List.mem_cons_self _ _
      · rw [listMaxQ, h]
        exact List.mem_cons_of_mem _ (ih (by simp))

/-- Every truthy-filtered RT60 value is nonzero. -/
theorem truthyRt60_ne_zero (rs : List RunRow) : ∀ v ∈ truthyRt60 rs, v ≠ 0 := by
  intro v hv
  rw [truthyRt60, List.mem_filterMap] at hv
  obtain ⟨row, _, hrow⟩ := hv
  revert hrow
  cases row.rt60_seconds with
  | none => simp
  | some w =>
    by_cases hw : w = 0 <;> simp [hw]
    rintro rfl
    exact hw

/-- Dropping an element the predicate rejects does not change `find?`. -/
theorem find?_skip_middle {α : Type} (p : α → Bool) (x : α) (hx : p x = false) :
    ∀ pre post : List α, List.find? p (pre ++ x :: post) = List.find? p (pre ++ post) := by
  intro pre post
  induction pre with
  | nil => simp [List.find?, hx]
  | cons y ys ih =>
    simp only [List.cons_append, List.find?]
    cases p y <;> simp [ih]

/-- Mask selection over zipped parallel arrays agrees with index-wise
selection over the common length. -/
theorem zip_mask_sel (p : ℚ → Bool) :
    ∀ fs ms : List ℚ,
      ((fs.zip ms).filter (fun q => p q.1)).map Prod.snd =
        (List.range (min fs.length ms.length)).filterMap
          (fun i => if p (fs.getD i 0) then some (ms.getD i 0) else none) := by
  intro fs
  induction fs with
  | nil => intro ms; simp
  | cons f fs ih =>
    intro ms
    cases ms with
    | nil => simp
    | cons m ms =>
      have hmin : min (f :: fs).length (m :: ms).length = min fs.length ms.length + 1 := by
        simp [Nat.succ_min_succ]
      rw [List.zip_cons_cons, List.filter_cons, hmin, List.range_succ_eq_map,
        List.filterMap_cons, List.filterMap_map]
      cases hp : p f <;>
        · simp [hp, ih]
          congr 1
          funext i
          simp [Function.comp]

/-- Shape of the RT60 block: when it does not raise, it appends a batch of
issues and conjoins a verdict, and the batch is empty iff the verdict
passed. -/
theorem applyRt60_shape {b c : PresetEntry} {t : ℚ} {r r' : ComparisonResult}
    (h : applyRt60 b c t r = some r') :
    ∃ (extra : List String) (okB : Bool),
      r'.pass = (r.pass && okB) ∧ r'.issues = r.issues ++ extra ∧
      (okB = true ↔ extra = []) := by
  rcases hb : b.rt60 with _ | db
  · refine ⟨[], true, ?_, ?_, by simp⟩ <;>
      (simp [applyRt60, hb] at h; rw [← h]; simp)
  rcases hc : c.rt60 with _ | dc
  · refine ⟨[], true, ?_, ?_, by simp⟩ <;>
      (simp [applyRt60, hb, hc] at h; rw [← h]; simp)
  rcases hcmp : compare_rt60 db dc t with _ | ⟨ok, msg, diff⟩
  · simp [applyRt60, hb, hc, hcmp] at h
  · simp only [applyRt60, hb, hc, hcmp] at h
    obtain rfl := Option.some.inj h
    exact ⟨if ok then [] else ["RT60: " ++ msg], ok, rfl, rfl, by cases ok <;> simp⟩

/-- Shape of the frequency-response block. -/
theorem applyFreq_shape (b c : PresetEntry) (t : ℚ) (r : ComparisonResult) :
    ∃ (extra : List String) (okB : Bool),
      (applyFreq b c t r).pass = (r.pass && okB) ∧
      (applyFreq b c t r).issues = r.issues ++ extra ∧
      (okB = true ↔ extra = []) := by
  rcases hb : b.freq with _ | db
  · exact ⟨[], true, by simp [applyFreq, hb], by simp [applyFreq, hb], by simp⟩
  rcases hc : c.freq with _ | dc
  · exact ⟨[], true, by simp [applyFreq, hb, hc], by simp [applyFreq, hb, hc], by simp⟩
  · refine ⟨if (compare_frequency_response db dc t).1 then []
        else ["Frequency: " ++ (compare_frequency_response db dc t).2.1],
      (compare_frequency_response db dc t).1,
      by simp [applyFreq, hb, hc], by simp [applyFreq, hb, hc], ?_⟩
    cases (compare_frequency_response db dc t).1 <;> simp

/-- Shape of the spatial block. -/
theorem applySpatial_shape (b c : PresetEntry) (ti tl ta : ℚ) (r : ComparisonResult) :
    ∃ (extra : List String) (okB : Bool),
      (applySpatial b c ti tl ta r).pass = (r.pass && okB) ∧
      (applySpatial b c ti tl ta r).issues = r.issues ++ extra ∧
      (okB = true ↔ extra = []) := by
  rcases hb : b.spatial with _ | db
  · exact ⟨[], true, by simp [applySpatial, hb], by simp [applySpatial, hb], by simp⟩
  rcases hc : c.spatial with _ | dc
  · exact ⟨[], true, by simp [applySpatial, hb, hc], by simp [applySpatial, hb, hc], by simp⟩
  · refine ⟨(compare_spatial_metrics db dc ti tl ta).2.1.map (fun s => "Spatial: " ++ s),
      (compare_spatial_metrics db dc ti tl ta).1,
      by simp [applySpatial, hb, hc], by simp [applySpatial, hb, hc], ?_⟩
    have he : (compare_spatial_metrics db dc ti tl ta).1 =
        (compare_spatial_metrics db dc ti tl ta).2.1.isEmpty := rfl
    rw [he]
    cases (compare_spatial_metrics db dc ti tl ta).2.1 <;> simp

/-- Shape of the waveform block. -/
theorem applyWaveform_shape (b c : PresetEntry) (t : ℚ) (r : ComparisonResult) :
    ∃ (extra : List String) (okB : Bool),
      (applyWaveform b c t r).pass = (r.pass && okB) ∧
      (applyWaveform b c t r).issues = r.issues ++ extra ∧
      (okB = true ↔ extra = []) := by
  rcases hb : b.wet with _ | wb
  · exact ⟨[], true, by simp [applyWaveform, hb], by simp [applyWaveform, hb], by simp⟩
  rcases hc : c.wet with _ | wc
  · exact ⟨[], true, by simp [applyWaveform, hb, hc], by simp [applyWaveform, hb, hc], by simp⟩
  rcases hm : compare_waveforms wb wc with _ | m
  · exact ⟨[], true, by simp [applyWaveform, hb, hc, hm],
      by simp [applyWaveform, hb, hc, hm], by simp⟩
  · refine ⟨(if corrLow m then ["Waveform correlation low"] else []) ++
        (if rmsHigh t m then ["Waveform RMS difference"] else []),
      !corrLow m && !rmsHigh t m,
      by simp [applyWaveform, hb, hc, hm, Bool.and_assoc],
      by simp [applyWaveform, hb, hc, hm], ?_⟩
    cases corrLow m <;> cases rmsHigh t m <;> simp

/-- Issue-membership is preserved by the frequency block. -/
theorem applyFreq_mem (b c : PresetEntry) (t : ℚ) (r : ComparisonResult) (s : String)
    (hs : s ∈ r.issues) : s ∈ (applyFreq b c t r).issues := by
  obtain ⟨extra, okB, _, hi, _⟩ := applyFreq_shape b c t r
  rw [hi]
  exact List.mem_append_left _ hs

/-- Issue-membership is preserved by the spatial block. -/
theorem applySpatial_mem (b c : PresetEntry) (ti tl ta : ℚ) (r : ComparisonResult)
    (s : String) (hs : s ∈ r.issues) : s ∈ (applySpatial b c ti tl ta r).issues := by
  obtain ⟨extra, okB, _, hi, _⟩ := applySpatial_shape b c ti tl ta r
  rw [hi]
  exact List.mem_append_left _ hs

/-- Issue-membership is preserved by the waveform block. -/
theorem applyWaveform_mem (b c : PresetEntry) (t : ℚ) (r : ComparisonResult)
    (s : String) (hs : s ∈ r.issues) : s ∈ (applyWaveform b c t r).issues := by
  obtain ⟨extra, okB, _, hi, _⟩ := applyWaveform_shape b c t r
  rw [hi]
  exact List.mem_append_left _ hs

/-- A failing RT60 comparison contributes its issue. -/
theorem applyRt60_adds {b c : PresetEntry} {t : ℚ} {r r' : ComparisonResult}
    {db dc : Rt60Doc} {msg : String} {diff : ℚ}
    (hb : b.rt60 = some db) (hc : c.rt60 = some dc)
    (hcmp : compare_rt60 db dc t = .res false msg diff)
    (h : applyRt60 b c t r = some r') :
    ("RT60: " ++ msg) ∈ r'.issues := by
  simp only [applyRt60, hb, hc, hcmp] at h
  obtain rfl := Option.some.inj h
  simp

/-- A failing frequency comparison contributes its issue. -/
theorem applyFreq_adds {b c : PresetEntry} {t : ℚ} (r : ComparisonResult)
    {db dc : FreqDoc}
    (hb : b.freq = some db) (hc : c.freq = some dc)
    (hfail : (compare_frequency_response db dc t).1 = false) :
    ("Frequency: " ++ (compare_frequency_response db dc t).2.1) ∈
      (applyFreq b c t r).issues := by
  simp [applyFreq, hb, hc, hfail]

/-- Every spatial cue failure contributes its prefixed issue. -/
theorem applySpatial_adds {b c : PresetEntry} {ti tl ta : ℚ} (r : ComparisonResult)
    {db dc : SpatialDoc} {s : String}
    (hb : b.spatial = some db) (hc : c.spatial = some dc)
    (hs : s ∈ (compare_spatial_metrics db dc ti tl ta).2.1) :
    ("Spatial: " ++ s) ∈ (applySpatial b c ti tl ta r).issues := by
  simp only [applySpatial, hb, hc]
  refine List.mem_append_right _ ?_
  exact List.mem_map_of_mem _ hs

/-- A failing correlation check contributes its issue. -/
theorem applyWaveform_adds_corr {b c : PresetEntry} {t : ℚ} (r : ComparisonResult)
    {wb wc : Wav} {m : WaveformMetrics}
    (hb : b.wet = some wb) (hc : c.wet = some wc)
    (hm : compare_waveforms wb wc = some m) (hcorr : corrLow m = true) :
    "Waveform correlation low" ∈ (applyWaveform b c t r).issues := by
  simp [applyWaveform, hb, hc, hm, hcorr]

/-- A failing RMS-difference check contributes its issue. -/
theorem applyWaveform_adds_rms {b c : PresetEntry} {t : ℚ} (r : ComparisonResult)
    {wb wc : Wav} {m : WaveformMetrics}
    (hb : b.wet = some wb) (hc : c.wet = some wc)
    (hm : compare_waveforms wb wc = some m) (hrms : rmsHigh t m = true) :
    "Waveform RMS difference" ∈ (applyWaveform b c t r).issues := by
  simp [applyWaveform, hb, hc, hm, hrms]

/-- RT60 self-comparison with a nonzero value passes with a 0 % delta. -/
theorem compare_rt60_self (d : Rt60Doc) (t : ℚ) (ht : 0 ≤ t) (v : ℚ)
    (hv : rt60Lookup d = some v) (hnz : v ≠ 0) :
    compare_rt60 d d t = .res true "RT60 within threshold" 0 := by
  have h100 : ¬ (t * 100 < 0) := not_lt.mpr (mul_nonneg ht (by norm_num))
  simp [compare_rt60, hv, hnz, sub_self, abs_zero, zero_div, zero_mul, h100]

/-- Flatness self-comparison with a present value passes with a 0 dB
delta. -/
theorem compare_freq_self (d : FreqDoc) (t : ℚ) (ht : 0 ≤ t) (f : ℚ)
    (hf : flatLookup d = some f) :
    compare_frequency_response d d t = (true, "Frequency response within threshold", 0) := by
  have h10 : ¬ (t * 10 < 0) := not_lt.mpr (mul_nonneg ht (by norm_num))
  simp [compare_frequency_response, hf, sub_self, abs_zero, h10]

/-- Spatial self-comparison passes with no issues under nonnegative
thresholds. -/
theorem compare_spatial_self (d : SpatialDoc) (ti tl ta : ℚ)
    (hti : 0 ≤ ti) (htl : 0 ≤ tl) (hta : 0 ≤ ta) :
    (compare_spatial_metrics d d ti tl ta).1 = true ∧
    (compare_spatial_metrics d d ti tl ta).2.1 = [] := by
  rcases hx : d.itd_seconds with _ | x <;> rcases hy : d.ild_db with _ | y <;>
    rcases hz : d.iacc with _ | z <;>
    simp [compare_spatial_metrics, hx, hy, hz, sub_self, abs_zero, zero_mul,
      not_lt.mpr hti, not_lt.mpr htl, not_lt.mpr hta]

/-- Pointwise difference of a list with itself. -/
theorem zipWith_sub_self (l : List ℚ) :
    List.zipWith (fun a b => a - b) l l = l.map (fun _ => (0 : ℚ)) := by
  induction l with
  | nil => rfl
  | cons x xs ih => simp [ih]

/-- Pointwise product of a list with itself. -/
theorem zipWith_mul_self (l : List ℚ) :
    List.zipWith (fun a b => a * b) l l = l.map (fun v => v * v) := by
  induction l with
  | nil => rfl
  | cons x xs ih => simp [ih]

/-- A list of zeros sums to zero. -/
theorem sum_map_zero (l : List ℚ) : (l.map (fun _ => (0 : ℚ))).sum = 0 := by
  induction l with
  | nil => rfl
  | cons x xs ih => simp [ih]

/-- Waveform self-comparison: zero RMS difference and equal correlation
numerator and variances. -/
theorem compare_waveforms_self (w : Wav) :
    compare_waveforms w w = some ⟨0, selfVar w, selfVar w, selfVar w⟩ := by
  unfold compare_waveforms
  rw [if_neg (show ¬ w.sampleRate ≠ w.sampleRate by simp)]
  simp only [min_self, List.take_length, zipWith_sub_self, zipWith_mul_self]
  have hz : (List.map (fun d => d * d)
      (List.map (fun _ => (0 : ℚ)) (w.samples.map (fun v => v / 32768)))).sum = 0 := by
    rw [List.map_map]
    have hc : ((fun d => d * d) ∘ fun _ : ℚ => (0 : ℚ)) = fun _ : ℚ => (0 : ℚ) := by
      funext x
      simp
    rw [hc, sum_map_zero]
  rw [hz, zero_div]
  rfl

/-- The correlation check passes on a perfect self-match with positive
variance. -/
theorem corrLow_self_false (S : ℚ) (hS : 0 < S) :
    corrLow ⟨0, S, S, S⟩ = false := by
  apply decide_eq_false
  rintro ⟨-, hbad | hbad⟩
  · exact absurd hbad (not_lt.mpr hS.le)
  · nlinarith [mul_pos hS hS]

/-- The RMS check passes on a zero difference with nonnegative
threshold. -/
theorem rmsHigh_zero_false (t S : ℚ) (ht : 0 ≤ t) :
    rmsHigh t ⟨0, S, S, S⟩ = false := by
  apply decide_eq_false
  rintro (hbad | hbad)
  · exact absurd hbad (not_lt.mpr ht)
  · exact absurd hbad (not_lt.mpr (sq_nonneg t))

/-- The RT60 block leaves a self-comparison untouched (well-formed or
absent document). -/
theorem applyRt60_self (e : PresetEntry) (t : ℚ) (r : ComparisonResult) (ht : 0 ≤ t)
    (hrt : ∀ d, e.rt60 = some d → ∃ v, rt60Lookup d = some v ∧ v ≠ 0) :
    ∃ r', applyRt60 e e t r = some r' ∧ r'.pass = r.pass ∧ r'.issues = r.issues := by
  rcases hd : e.rt60 with _ | d
  · exact ⟨r, by simp [applyRt60, hd], rfl, rfl⟩
  · obtain ⟨v, hv, hnz⟩ := hrt d hd
    refine ⟨{ r with rt60DiffPct := some 0 }, ?_, rfl, rfl⟩
    simp [applyRt60, hd, compare_rt60_self d t ht v hv hnz]

/-- The frequency block leaves a self-comparison untouched. -/
theorem applyFreq_self (e : PresetEntry) (t : ℚ) (r : ComparisonResult) (ht : 0 ≤ t)
    (hfl : ∀ d, e.freq = some d → ∃ f, flatLookup d = some f) :
    (applyFreq e e t r).pass = r.pass ∧ (applyFreq e e t r).issues = r.issues := by
  rcases hd : e.freq with _ | d
  · simp [applyFreq, hd]
  · obtain ⟨f, hf⟩ := hfl d hd
    simp [applyFreq, hd, compare_freq_self d t ht f hf]

/-- The spatial block leaves a self-comparison untouched. -/
theorem applySpatial_self (e : PresetEntry) (ti tl ta : ℚ) (r : ComparisonResult)
    (hti : 0 ≤ ti) (htl : 0 ≤ tl) (hta : 0 ≤ ta) :
    (applySpatial e e ti tl ta r).pass = r.pass ∧
    (applySpatial e e ti tl ta r).issues = r.issues := by
  rcases hd : e.spatial with _ | d
  · simp [applySpatial, hd]
  · obtain ⟨h1, h2⟩ := compare_spatial_self d ti tl ta hti htl hta
    simp [applySpatial, hd, h1, h2]

/-- The waveform block leaves a non-constant self-comparison untouched and
records metrics with correlation exactly 1. -/
theorem applyWaveform_self (e : PresetEntry) (t : ℚ) (r : ComparisonResult) (ht : 0 ≤ t)
    (hwet : ∀ w, e.wet = some w → 0 < selfVar w) :
    (applyWaveform e e t r).pass = r.pass ∧
    (applyWaveform e e t r).issues = r.issues ∧
    (∀ w, e.wet = some w → ∃ m, (applyWaveform e e t r).waveform = some m ∧
      m.corrNum = m.corrVarX ∧ m.corrVarX = m.corrVarY ∧ correlationIsOne m) := by
  rcases hd : e.wet with _ | w
  · refine ⟨by simp [applyWaveform, hd], by simp [applyWaveform, hd], ?_⟩
    intro w hw
    exact absurd hw (by simp)
  · have hS := hwet w hd
    have hcw := compare_waveforms_self w
    have hcl := corrLow_self_false (selfVar w) hS
    have hrm := rmsHigh_zero_false t (selfVar w) ht
    refine ⟨by simp [applyWaveform, hd, hcw, hcl, hrm],
      by simp [applyWaveform, hd, hcw, hcl, hrm], ?_⟩
    intro w2 hw2
    obtain rfl := Option.some.inj hw2
    refine ⟨⟨0, selfVar w, selfVar w, selfVar w⟩,
      by simp [applyWaveform, hd, hcw, hcl, hrm], rfl, rfl, hS, ?_⟩
    rw [pow_two]

/-! ## Claim theorems -/

/-- C1: the decay-estimator fallback ladder.  The claim (and the spec, and
the source's own comments) say the −30 dB fallback reports twice the time of
the first −30 dB crossing.  On `c1Audio` (sample rate 1 Hz) the first −30 dB
crossing is at sample 1 (time 1 s) and there is no −60 dB crossing, yet
`analyze_rt60` reports 4 s, not 2 s: `manual_rt60_calculation` already scales
the crossing time by `60/30 = 2` and the caller multiplies by 2 again. -/
theorem C1_rt30_extrapolation_doubled :
    firstCrossing (suffixSums (energyOf c1Audio)) (dbRatio (-60)) = none ∧
    firstCrossing (suffixSums (energyOf c1Audio)) (dbRatio (-30)) = some 1 ∧
    manual_rt60_calculation c1Audio 1 (-30) = some 2 ∧
    analyze_rt60 c1Audio 1 PraOutcome.failed = (some 4, "manual_RT30_extrapolated") ∧
    (4 : ℚ) ≠ 2 * ((1 : ℚ) / 1) := by
  refine ⟨?_, ?_, ?_, ?_, by norm_num⟩ <;>
    norm_num [analyze_rt60, manual_rt60_calculation, praAccepted, firstCrossing, firstIdx,
      suffixSums, energyOf, c1Audio, listMaxQ, max_def, dbRatio]

/-- C4: for every nonempty sample array, the four stability checks (NaN
count = 0, Inf count = 0, denormal percentage ≤ 0.01 %, DC offset ≤ −60 dB)
are evaluated independently: the overall verdict is their logical AND, the
verdict passes exactly when the violation list is empty, and the violation
list carries one entry per failing check. -/
theorem C4_stability_checks_independent (xs : List FSample) (hne : xs ≠ []) :
    ((check_stability_thresholds (analyze_audio_stability xs)).2 = true ↔
      (check_stability_thresholds (analyze_audio_stability xs)).1 = []) ∧
    ((check_stability_thresholds (analyze_audio_stability xs)).2 = true ↔
      ((analyze_audio_stability xs).nanCount = 0 ∧
       (analyze_audio_stability xs).infCount = 0 ∧
       (analyze_audio_stability xs).denormalPercent ≤ 1 / 100 ∧
       dcExceedsDb60 (analyze_audio_stability xs).dcAbsMean = false)) ∧
    (check_stability_thresholds (analyze_audio_stability xs)).1.length =
      ((if 0 < (analyze_audio_stability xs).nanCount then 1 else 0) +
       (if 0 < (analyze_audio_stability xs).infCount then 1 else 0) +
       (if 1 / 100 < (analyze_audio_stability xs).denormalPercent then 1 else 0) +
       (if dcExceedsDb60 (analyze_audio_stability xs).dcAbsMean then 1 else 0)) := by
  set s := analyze_audio_stability xs with hs
  obtain ⟨A1, A2⟩ := check_bool_core (decide (0 < s.nanCount)) (decide (0 < s.infCount))
    (decide ((1 : ℚ) / 100 < s.denormalPercent)) (dcExceedsDb60 s.dcAbsMean)
  refine ⟨A1, ?_, ?_⟩
  · show (!decide (0 < s.nanCount) && !decide (0 < s.infCount) &&
      !decide ((1 : ℚ) / 100 < s.denormalPercent) && !dcExceedsDb60 s.dcAbsMean) = true ↔ _
    simp [not_lt, Nat.pos_iff_ne_zero, and_assoc]
  · refine A2.trans ?_
    simp

/-- C4 witness: a concrete three-sample array (one NaN, one Inf, one clean
zero sample) evaluated through the checker. -/
theorem C4_stability_checks_independent_witness :
    ([FSample.nan, FSample.posInf, FSample.val 0] ≠ ([] : List FSample)) ∧
    ((check_stability_thresholds
        (analyze_audio_stability [FSample.nan, FSample.posInf, FSample.val 0])).2 = true ↔
      (check_stability_thresholds
        (analyze_audio_stability [FSample.nan, FSample.posInf, FSample.val 0])).1 = []) :=
  ⟨by simp,
   (C4_stability_checks_independent [FSample.nan, FSample.posInf, FSample.val 0]
      (by simp)).1⟩

/-- C5: a sample buffer containing exactly one `NaN`, anywhere, with any
finite samples around it, makes the Stability Checker report
`nan_count = 1` and an overall fail; for stereo input the channels are
averaged into a mono fold first, and a `NaN` in either channel of one frame
yields the same verdict. -/
theorem C5_single_nan_always_fails :
    (∀ a b : List ℚ,
      (analyze_audio_stability
        (a.map FSample.val ++ FSample.nan :: b.map FSample.val)).nanCount = 1 ∧
      (check_stability_thresholds (analyze_audio_stability
        (a.map FSample.val ++ FSample.nan :: b.map FSample.val))).2 = false) ∧
    (∀ (pre post : List (ℚ × ℚ)) (r : ℚ),
      (analyze_audio_stability (monoFold
        (pre.map valPair ++ (FSample.nan, FSample.val r) :: post.map valPair))).nanCount = 1 ∧
      (check_stability_thresholds (analyze_audio_stability (monoFold
        (pre.map valPair ++ (FSample.nan, FSample.val r) :: post.map valPair)))).2 = false) := by
  have base : ∀ a b : List ℚ,
      (analyze_audio_stability
        (a.map FSample.val ++ FSample.nan :: b.map FSample.val)).nanCount = 1 ∧
      (check_stability_thresholds (analyze_audio_stability
        (a.map FSample.val ++ FSample.nan :: b.map FSample.val))).2 = false := by
    intro a b
    have h1 : (analyze_audio_stability
        (a.map FSample.val ++ FSample.nan :: b.map FSample.val)).nanCount = 1 := by
      simpa [analyze_audio_stability] using countB_isNan_single a b
    exact ⟨h1, check_fails_of_nan _ (by rw [h1]; exact one_ne_zero)⟩
  refine ⟨base, ?_⟩
  intro pre post r
  have hfold : monoFold (pre.map valPair ++ (FSample.nan, FSample.val r) :: post.map valPair) =
      (pre.map (fun p => (p.1 + p.2) / 2)).map FSample.val ++
        FSample.nan :: (post.map (fun p => (p.1 + p.2) / 2)).map FSample.val := by
    unfold monoFold
    rw [List.map_append, List.map_cons, mapFold_vals, mapFold_vals]
    rfl
  rw [hfold]
  exact base _ _

/-- C6: a grid cell with an RT60 document is flagged runaway iff its
analysis notes mention decay (the decay-failure notes check
`"decay" in notes.lower()`) or its reported RT60 is positive and at least
90 % of the requested capture duration; a cell without an RT60 document is
never flagged. -/
theorem C6_runaway_iff (d : RunawayDoc) (dur : ℚ) :
    ((detect_runaway (some d) dur).1 = true ↔
      (mentionsDecay d.analysisNotes = true ∨
        (0 < rt60OrZero d ∧ dur * (9 / 10) ≤ rt60OrZero d))) ∧
    (detect_runaway none dur).1 = false := by
  refine ⟨?_, rfl⟩
  have hne : mentionsDecay d.analysisNotes = true → d.analysisNotes ≠ "" := by
    intro hm heq
    rw [heq, mentionsDecay_empty] at hm
    exact Bool.false_ne_true hm
  rw [detect_runaway]
  split_ifs with h1 h2
  · simp [h1.2]
  · simp [h2]
  · have hm : ¬ mentionsDecay d.analysisNotes = true := fun hm => h1 ⟨hne hm, hm⟩
    simp [hm, h2]

/-- C8: the overall flatness figure is the standard deviation of the
magnitude spectrum restricted to [20 Hz, 20 kHz] (stated on squared values,
since `np.std` is the square root of `varQ`), and the qualitative rating
boundaries are exactly: Excellent iff < 3 dB, Good iff 3 ≤ · < 6 dB,
Fair iff 6 ≤ · < 10 dB, Colored iff ≥ 10 dB. -/
theorem C8_flatness_rating_boundaries (f : ℚ) (freqs mags : List ℚ) :
    ((quality_rating f = "Excellent") ↔ f < 3) ∧
    ((quality_rating f = "Good") ↔ (3 ≤ f ∧ f < 6)) ∧
    ((quality_rating f = "Fair") ↔ (6 ≤ f ∧ f < 10)) ∧
    ((quality_rating f = "Colored") ↔ 10 ≤ f) ∧
    audioSpectrum freqs mags = bandRestricted freqs mags ∧
    overallFlatnessSq freqs mags = varQ (bandRestricted freqs mags) := by
  have hsel : audioSpectrum freqs mags = bandRestricted freqs mags := by
    rw [audioSpectrum, bandRestricted, zip_mask_sel (fun x => decide (20 ≤ x ∧ x ≤ 20000))]
    simp
  have hflat : overallFlatnessSq freqs mags = varQ (bandRestricted freqs mags) := by
    rw [overallFlatnessSq, hsel]
  rcases lt_or_le f 3 with h1 | h1
  · have e : quality_rating f = "Excellent" := by rw [quality_rating, if_pos h1]
    rw [e]
    exact ⟨by simp [h1], by simp [not_le.mpr h1],
      by simp [not_le.mpr (lt_trans h1 (by norm_num : (3 : ℚ) < 6))],
      by simp [not_le.mpr (lt_trans h1 (by norm_num : (3 : ℚ) < 10))], hsel, hflat⟩
  rcases lt_or_le f 6 with h2 | h2
  · have e : quality_rating f = "Good" := by
      rw [quality_rating, if_neg (not_lt.mpr h1), if_pos h2]
    rw [e]
    exact ⟨by simp [not_lt.mpr h1], by simp [h1, h2], by simp [not_le.mpr h2],
      by simp [not_le.mpr (lt_trans h2 (by norm_num : (6 : ℚ) < 10))], hsel, hflat⟩
  rcases lt_or_le f 10 with h3 | h3
  · have e : quality_rating f = "Fair" := by
      rw [quality_rating, if_neg (not_lt.mpr (le_trans (by norm_num : (3 : ℚ) ≤ 6) h2)),
        if_neg (not_lt.mpr h2), if_pos h3]
    rw [e]
    exact ⟨by simp [not_lt.mpr (le_trans (by norm_num : (3 : ℚ) ≤ 6) h2)],
      by simp [not_lt.mpr h2], by simp [h2, h3], by simp [not_le.mpr h3], hsel, hflat⟩
  · have e : quality_rating f = "Colored" := by
      rw [quality_rating, if_neg (not_lt.mpr (le_trans (by norm_num : (3 : ℚ) ≤ 10) h3)),
        if_neg (not_lt.mpr (le_trans (by norm_num : (6 : ℚ) ≤ 10) h3)),
        if_neg (not_lt.mpr h3)]
    rw [e]
    exact ⟨by simp [not_lt.mpr (le_trans (by norm_num : (3 : ℚ) ≤ 10) h3)],
      by simp [not_lt.mpr (le_trans (by norm_num : (6 : ℚ) ≤ 10) h3)],
      by simp [not_lt.mpr h3], by simp [h3], hsel, hflat⟩

/-- C10: the sweep summary's aggregate statistics and the `max_rt60`
extreme are computed only over truthy values — a cell row whose
`rt60_seconds` (resp. `flatness_db`) is `None` or exactly `0.0` is excluded
from the filtered value list, hence from the count/min/mean/median/p95/max
statistics, and from the `max_rt60` entry. -/
theorem C10_truthy_exclusion (pre post : List RunRow) (row : RunRow) :
    ((row.rt60_seconds = none ∨ row.rt60_seconds = some 0) →
      truthyRt60 (pre ++ row :: post) = truthyRt60 (pre ++ post) ∧
      rt60Stats (pre ++ row :: post) = rt60Stats (pre ++ post) ∧
      maxRt60Entry (pre ++ row :: post) = maxRt60Entry (pre ++ post)) ∧
    ((row.flatness_db = none ∨ row.flatness_db = some 0) →
      truthyFlatness (pre ++ row :: post) = truthyFlatness (pre ++ post) ∧
      flatnessStats (pre ++ row :: post) = flatnessStats (pre ++ post)) := by
  constructor
  · intro h
    have hnone : (match row.rt60_seconds with
        | some v => if v = 0 then none else some v
        | none => none) = (none : Option ℚ) := by
      rcases h with h | h <;> rw [h] <;> simp
    have htruthy : truthyRt60 (pre ++ row :: post) = truthyRt60 (pre ++ post) := by
      rw [truthyRt60, truthyRt60, List.filterMap_append, List.filterMap_append,
        List.filterMap_cons, hnone]
    refine ⟨htruthy, by rw [rt60Stats, rt60Stats, htruthy], ?_⟩
    rw [maxRt60Entry, maxRt60Entry, htruthy]
    by_cases hempty : truthyRt60 (pre ++ post) = []
    · simp [hempty]
    · have hmne : listMaxQ (truthyRt60 (pre ++ post)) ≠ 0 :=
        truthyRt60_ne_zero (pre ++ post) _ (listMaxQ_mem _ hempty)
      have hpx : decide (row.rt60_seconds =
          some (listMaxQ (truthyRt60 (pre ++ post)))) = false := by
        rcases h with h | h <;> rw [h] <;> simp
        exact fun heq => hmne heq.symm
      simp only [hempty, if_false]
      rw [find?_skip_middle _ row hpx pre post]
  · intro h
    have hnone : (match row.flatness_db with
        | some v => if v = 0 then none else some v
        | none => none) = (none : Option ℚ) := by
      rcases h with h | h <;> rw [h] <;> simp
    have htruthy : truthyFlatness (pre ++ row :: post) = truthyFlatness (pre ++ post) := by
      rw [truthyFlatness, truthyFlatness, List.filterMap_append, List.filterMap_append,
        List.filterMap_cons, hnone]
    exact ⟨htruthy, by rw [flatnessStats, flatnessStats, htruthy]⟩

/-- C10 witness: appending a row with `rt60_seconds = None` and
`flatness_db = 0.0` to a one-row result list changes neither the filtered
value lists, nor the statistics, nor the extreme entry. -/
theorem C10_truthy_exclusion_witness :
    (truthyRt60 ([c10RowA] ++ c10RowB :: []) = truthyRt60 ([c10RowA] ++ []) ∧
      rt60Stats ([c10RowA] ++ c10RowB :: []) = rt60Stats ([c10RowA] ++ []) ∧
      maxRt60Entry ([c10RowA] ++ c10RowB :: []) = maxRt60Entry ([c10RowA] ++ [])) ∧
    (truthyFlatness ([c10RowA] ++ c10RowB :: []) = truthyFlatness ([c10RowA] ++ []) ∧
      flatnessStats ([c10RowA] ++ c10RowB :: []) = flatnessStats ([c10RowA] ++ [])) :=
  ⟨(C10_truthy_exclusion [c10RowA] [] c10RowB).1 (Or.inl rfl),
   (C10_truthy_exclusion [c10RowA] [] c10RowB).2 (Or.inr rfl)⟩

/-- C2 counterexample: both preset directories exist, the baseline carries
an `rt60_metrics.json` but the current side has no metric files at all —
the claim says this must fail with a "missing" reason, yet `compare_preset`
reports `pass = True` with an empty issue list: an absent metric file is a
silent skip, not a failure. -/
theorem C2_metric_file_skip_counterexample :
    entryWithRt60.rt60 = some ⟨none, some 1⟩ ∧
    entryNoFiles.rt60 = none ∧
    compare_preset 5 entryWithRt60 entryNoFiles (5 / 100) (1 / 5) 1 (1 / 20) =
      some (initResult 5) ∧
    (initResult 5).pass = true ∧ (initResult 5).issues = [] :=
  ⟨rfl, rfl, rfl, rfl, rfl⟩

/-- C2 (amended): an absent preset *directory* on either side makes that
preset's result a failure with the corresponding "missing" reason; in
particular a baseline with preset 5 present and a current set with preset
5's directory absent yields preset 5 failed with reason
"Current preset missing", independently of every other preset's data
(which the statement quantifies over freely).  (An absent metric *file*,
by contrast, skips that family's comparison — see the counterexample.) -/
theorem C2_directory_missing_is_failure
    (bMap cMap : ℤ → PresetEntry) (threshold itdMsThr ildDbThr iaccThr : ℚ)
    (indices : List ℤ)
    (hb : (bMap 5).present = true) (hc : (cMap 5).present = false)
    (hmem : (5 : ℤ) ∈ indices) :
    (∀ (idx : ℤ) (b c : PresetEntry), b.present = false →
      compare_preset idx b c threshold itdMsThr ildDbThr iaccThr =
        some { initResult idx with pass := false, issues := ["Baseline preset missing"] }) ∧
    (∀ (idx : ℤ) (b c : PresetEntry), b.present = true → c.present = false →
      compare_preset idx b c threshold itdMsThr ildDbThr iaccThr =
        some { initResult idx with pass := false, issues := ["Current preset missing"] }) ∧
    ((5 : ℤ), some { initResult 5 with pass := false, issues := ["Current preset missing"] }) ∈
      compareAll indices bMap cMap threshold itdMsThr ildDbThr iaccThr := by
  have part1 : ∀ (idx : ℤ) (b c : PresetEntry), b.present = false →
      compare_preset idx b c threshold itdMsThr ildDbThr iaccThr =
        some { initResult idx with pass := false, issues := ["Baseline preset missing"] } := by
    intro idx b c hbp
    simp [compare_preset, hbp]
  have part2 : ∀ (idx : ℤ) (b c : PresetEntry), b.present = true → c.present = false →
      compare_preset idx b c threshold itdMsThr ildDbThr iaccThr =
        some { initResult idx with pass := false, issues := ["Current preset missing"] } := by
    intro idx b c hbp hcp
    simp [compare_preset, hbp, hcp]
  refine ⟨part1, part2, ?_⟩
  rw [compareAll, List.mem_map]
  exact ⟨5, hmem, by rw [part2 5 (bMap 5) (cMap 5) hb hc]⟩

/-- C2 witness: a one-preset comparison with the current directory absent,
evaluated through the whole comparison loop. -/
theorem C2_directory_missing_is_failure_witness :
    ((5 : ℤ), some { initResult 5 with pass := false, issues := ["Current preset missing"] }) ∈
      compareAll [5] (fun _ => entryWithRt60) (fun _ => absentEntry)
        (5 / 100) (1 / 5) 1 (1 / 20) :=
  (C2_directory_missing_is_failure (fun _ => entryWithRt60) (fun _ => absentEntry)
    (5 / 100) (1 / 5) 1 (1 / 20) [5] rfl rfl (by simp)).2.2

/-- C3: for every preset comparison that returns a result, the pass flag is
true iff the issue list is empty, and every failing check contributes its
issue to the list regardless of the other checks' outcomes: a failing RT60,
frequency, spatial-cue, waveform-correlation or waveform-RMS check is
always represented (no short-circuiting). -/
theorem C3_all_issues_collected
    (idx : ℤ) (b c : PresetEntry) (threshold itdMsThr ildDbThr iaccThr : ℚ)
    (r : ComparisonResult)
    (hr : compare_preset idx b c threshold itdMsThr ildDbThr iaccThr = some r) :
    ((r.pass = true) ↔ (r.issues = [])) ∧
    (∀ (db dc : Rt60Doc) (msg : String) (diff : ℚ),
      b.present = true → c.present = true →
      b.rt60 = some db → c.rt60 = some dc →
      compare_rt60 db dc threshold = .res false msg diff →
      ("RT60: " ++ msg) ∈ r.issues) ∧
    (∀ db dc : FreqDoc,
      b.present = true → c.present = true →
      b.freq = some db → c.freq = some dc →
      (compare_frequency_response db dc threshold).1 = false →
      ("Frequency: " ++ (compare_frequency_response db dc threshold).2.1) ∈ r.issues) ∧
    (∀ (db dc : SpatialDoc) (s : String),
      b.present = true → c.present = true →
      b.spatial = some db → c.spatial = some dc →
      s ∈ (compare_spatial_metrics db dc itdMsThr ildDbThr iaccThr).2.1 →
      ("Spatial: " ++ s) ∈ r.issues) ∧
    (∀ (wb wc : Wav) (m : WaveformMetrics),
      b.present = true → c.present = true →
      b.wet = some wb → c.wet = some wc →
      compare_waveforms wb wc = some m →
      ((corrLow m = true → "Waveform correlation low" ∈ r.issues) ∧
       (rmsHigh threshold m = true → "Waveform RMS difference" ∈ r.issues))) := by
  unfold compare_preset at hr
  by_cases hbp : b.present = false
  · rw [if_pos hbp] at hr
    obtain rfl := Option.some.inj hr
    refine ⟨by simp, ?_, ?_, ?_, ?_⟩ <;> intro _ _ _ <;> intros <;>
      simp_all
  rw [if_neg hbp] at hr
  by_cases hcp : c.present = false
  · rw [if_pos hcp] at hr
    obtain rfl := Option.some.inj hr
    refine ⟨by simp, ?_, ?_, ?_, ?_⟩ <;> intro _ _ _ <;> intros <;>
      simp_all
  rw [if_neg hcp] at hr
  rcases happ : applyRt60 b c threshold (initResult idx) with _ | r1
  · rw [happ] at hr
    exact absurd hr (by simp)
  rw [happ] at hr
  obtain rfl := Option.some.inj hr
  obtain ⟨e1, o1, hp1, hi1, ho1⟩ := applyRt60_shape happ
  obtain ⟨e2, o2, hp2, hi2, ho2⟩ := applyFreq_shape b c threshold r1
  obtain ⟨e3, o3, hp3, hi3, ho3⟩ :=
    applySpatial_shape b c itdMsThr ildDbThr iaccThr (applyFreq b c threshold r1)
  obtain ⟨e4, o4, hp4, hi4, ho4⟩ := applyWaveform_shape b c threshold
    (applySpatial b c itdMsThr ildDbThr iaccThr (applyFreq b c threshold r1))
  refine ⟨?_, ?_, ?_, ?_, ?_⟩
  · rw [hp4, hi4, hp3, hi3, hp2, hi2, hp1, hi1]
    simp only [initResult, Bool.true_and, Bool.and_eq_true, List.nil_append,
      List.append_eq_nil]
    rw [ho1, ho2, ho3, ho4]
  · intro db dc msg diff _ _ hbd hcd hcmp
    exact applyWaveform_mem _ _ _ _ _ (applySpatial_mem _ _ _ _ _ _ _
      (applyFreq_mem _ _ _ _ _ (applyRt60_adds hbd hcd hcmp happ)))
  · intro db dc _ _ hbd hcd hfail
    exact applyWaveform_mem _ _ _ _ _ (applySpatial_mem _ _ _ _ _ _ _
      (applyFreq_adds r1 hbd hcd hfail))
  · intro db dc s _ _ hbd hcd hs
    exact applyWaveform_mem _ _ _ _ _
      (applySpatial_adds (applyFreq b c threshold r1) hbd hcd hs)
  · intro wb wc m _ _ hbw hcw hm
    exact ⟨fun hcorr => applyWaveform_adds_corr _ hbw hcw hm hcorr,
           fun hrms => applyWaveform_adds_rms _ hbw hcw hm hrms⟩

/-- C3 witness: a comparison where both directories exist and only the
baseline carries an RT60 document; the result passes with an empty issue
list. -/
theorem C3_all_issues_collected_witness :
    ((initResult 3).pass = true) ↔ ((initResult 3).issues = []) :=
  (C3_all_issues_collected 3 entryWithRt60 entryNoFiles
    (5 / 100) (1 / 5) 1 (1 / 20) (initResult 3) rfl).1

/-- C7: comparing a well-formed, non-constant preset entry against itself
passes with zero issues, and the recorded waveform metrics witness a
Pearson correlation of exactly 1 (`correlationIsOne`).  "Well-formed"
means: present RT60 documents resolve to a nonzero value (a zero baseline
RT60 would raise `ZeroDivisionError`, a missing value would fail with
"Missing RT60 data"), present frequency documents resolve to a flatness
value, and present wet waveforms are non-constant (`0 < selfVar`). -/
theorem C7_self_comparison_passes
    (idx : ℤ) (e : PresetEntry) (threshold itdMsThr ildDbThr iaccThr : ℚ)
    (hpres : e.present = true)
    (hthr : 0 ≤ threshold) (hitd : 0 ≤ itdMsThr) (hild : 0 ≤ ildDbThr) (hiacc : 0 ≤ iaccThr)
    (hrt : ∀ d, e.rt60 = some d → ∃ v, rt60Lookup d = some v ∧ v ≠ 0)
    (hfl : ∀ d, e.freq = some d → ∃ f, flatLookup d = some f)
    (hwet : ∀ w, e.wet = some w → 0 < selfVar w) :
    ∃ r, compare_preset idx e e threshold itdMsThr ildDbThr iaccThr = some r ∧
      r.pass = true ∧ r.issues = [] ∧
      (∀ w, e.wet = some w → ∃ m, r.waveform = some m ∧
        m.corrNum = m.corrVarX ∧ m.corrVarX = m.corrVarY ∧ correlationIsOne m) := by
  obtain ⟨r1, happ, hp1, hi1⟩ :=
    applyRt60_self e threshold (initResult idx) hthr hrt
  obtain ⟨hp2, hi2⟩ := applyFreq_self e threshold r1 hthr hfl
  obtain ⟨hp3, hi3⟩ := applySpatial_self e itdMsThr ildDbThr iaccThr
    (applyFreq e e threshold r1) hitd hild hiacc
  obtain ⟨hp4, hi4, hw4⟩ := applyWaveform_self e threshold
    (applySpatial e e itdMsThr ildDbThr iaccThr (applyFreq e e threshold r1)) hthr hwet
  refine ⟨applyWaveform e e threshold
    (applySpatial e e itdMsThr ildDbThr iaccThr (applyFreq e e threshold r1)), ?_, ?_, ?_, hw4⟩
  · have hbp : ¬ (e.present = false) := by rw [hpres]; simp
    rw [compare_preset, if_neg hbp, if_neg hbp, happ]
    rfl
  · rw [hp4, hp3, hp2, hp1]
    rfl
  · rw [hi4, hi3, hi2, hi1]
    rfl

/-- C7 witness: the concrete complete entry `c7Entry` compared against
itself at the default thresholds. -/
theorem C7_self_comparison_passes_witness :
    ∃ r, compare_preset 7 c7Entry c7Entry (5 / 100) (1 / 5) 1 (1 / 20) = some r ∧
      r.pass = true ∧ r.issues = [] ∧
      (∀ w, c7Entry.wet = some w → ∃ m, r.waveform = some m ∧
        m.corrNum = m.corrVarX ∧ m.corrVarX = m.corrVarY ∧ correlationIsOne m) :=
  C7_self_comparison_passes 7 c7Entry (5 / 100) (1 / 5) 1 (1 / 20) rfl
    (by norm_num) (by norm_num) (by norm_num) (by norm_num)
    (by
      intro d hd
      obtain rfl := Option.some.inj hd
      exact ⟨1, rfl, one_ne_zero⟩)
    (by
      intro d hd
      obtain rfl := Option.some.inj hd
      exact ⟨2, rfl⟩)
    (by
      intro w hw
      obtain rfl := Option.some.inj hw
      norm_num [selfVar, centered, meanQ])

/-- C9: the RT60 percentage comparison has no zero guard.  A baseline
document whose broadband `rt60_seconds` is exactly `0.0` with the top-level
key absent reaches the division and raises `ZeroDivisionError` (whenever
the current side resolves to a value at all), while a top-level
`rt60_seconds` of `0.0` with no broadband value is swallowed by the falsy
`or`-chain and reported as "Missing RT60 data"; with a nonzero resolved
baseline value the division is safe. -/
theorem C9_rt60_zero_division
    (bd cd : Rt60Doc) (threshold : ℚ) :
    (bd.rt60_seconds = none → bd.broadband_rt60_seconds = some 0 →
      (∃ v, rt60Lookup cd = some v) →
      compare_rt60 bd cd threshold = .zeroDiv) ∧
    (bd.rt60_seconds = some 0 → bd.broadband_rt60_seconds = none →
      compare_rt60 bd cd threshold = .res false "Missing RT60 data" 0) ∧
    ((∀ v, rt60Lookup bd = some v → v ≠ 0) →
      compare_rt60 bd cd threshold ≠ .zeroDiv) := by
  refine ⟨?_, ?_, ?_⟩
  · intro h1 h2 ⟨v, hv⟩
    have hlb : rt60Lookup bd = some 0 := by rw [rt60Lookup, h1, h2]
    simp [compare_rt60, hlb, hv]
  · intro h1 h2
    have hlb : rt60Lookup bd = none := by
      rw [rt60Lookup, h1]
      simp [h2]
    simp [compare_rt60, hlb]
  · intro hnz
    rcases hlb : rt60Lookup bd with _ | v
    · simp [compare_rt60, hlb]
    rcases hlc : rt60Lookup cd with _ | u
    · simp [compare_rt60, hlb, hlc]
    · have hv := hnz v hlb
      simp only [compare_rt60, hlb, hlc, if_neg hv]
      split_ifs <;> simp

/-- C9 witness: concrete documents through both paths. -/
theorem C9_rt60_zero_division_witness :
    compare_rt60 rt60DocBroadbandZero rt60DocOne (5 / 100) = .zeroDiv ∧
    compare_rt60 rt60DocTopZero rt60DocOne (5 / 100) =
      .res false "Missing RT60 data" 0 :=
  ⟨(C9_rt60_zero_division rt60DocBroadbandZero rt60DocOne (5 / 100)).1 rfl rfl
      ⟨1, by norm_num [rt60Lookup, rt60DocOne]⟩,
   (C9_rt60_zero_division rt60DocTopZero rt60DocOne (5 / 100)).2.1 rfl rfl⟩

end Monument
